import Mathlib

/-!
Verification of the turboAPI dispatch-and-concurrency engine (src/server.rs)
against its natural-language specification.

The Rust source is shallowly embedded: pure fragments become Lean functions,
the process-wide `OnceLock` cells become explicit optional state threaded
through the functions that touch them, byte buffers become lists of natural
numbers below 256, and responses become a record of status, headers and body.
Every definition is translated from src/server.rs except where a doc comment
says `Modelled from the spec:` (the parameterized-route trie lives in
router.rs, which is not part of the provided sources).
-/

namespace TurboAPI

/-! ## String-containment helpers

Rust `str::contains(sub)` is substring containment.  The embedding works on
character lists so that everything evaluates by kernel reduction. -/

def charsStartWith : List Char → List Char → Bool
  | _, [] => true
  | [], _ :: _ => false
  | h :: hs, n :: ns => h == n && charsStartWith hs ns

def charsContain : List Char → List Char → Bool
  | [], needle => needle.isEmpty
  | h :: t, needle => charsStartWith (h :: t) needle || charsContain t needle

/-- Rust `haystack.contains(needle)` on strings. -/
def strContains (hay needle : String) : Bool :=
  charsContain hay.toList needle.toList

theorem charsStartWith_nil (l : List Char) : charsStartWith l [] = true := by
  cases l <;> rfl

theorem charsContain_nil (l : List Char) : charsContain l [] = true := by
  induction l with
  | nil => rfl
  | cons h t ih => simp [charsContain, charsStartWith_nil]

theorem charsStartWith_append (l m n : List Char)
    (h : charsStartWith l n = true) : charsStartWith (l ++ m) n = true := by
  induction n generalizing l with
  | nil => exact charsStartWith_nil _
  | cons c cs ih =>
    cases l with
    | nil => simp [charsStartWith] at h
    | cons x xs =>
      simp only [charsStartWith, Bool.and_eq_true] at h
      simp only [List.cons_append, charsStartWith, Bool.and_eq_true]
      exact ⟨h.1, ih xs h.2⟩

theorem charsContain_append_left (a b n : List Char)
    (h : charsContain a n = true) : charsContain (a ++ b) n = true := by
  induction a with
  | nil =>
    simp only [charsContain, List.isEmpty_iff] at h
    subst h
    simpa using charsContain_nil b
  | cons x xs ih =>
    simp only [charsContain, Bool.or_eq_true] at h
    rcases h with h | h
    · simp only [List.cons_append, charsContain, Bool.or_eq_true]
      exact Or.inl (charsStartWith_append _ _ _ h)
    · simp only [List.cons_append, charsContain, Bool.or_eq_true]
      exact Or.inr (ih h)

theorem charsContain_append_right (a b n : List Char)
    (h : charsContain b n = true) : charsContain (a ++ b) n = true := by
  induction a with
  | nil => simpa using h
  | cons x xs ih =>
    simp only [List.cons_append, charsContain, Bool.or_eq_true]
    exact Or.inr ih

theorem charsStartWith_refl (l : List Char) : charsStartWith l l = true := by
  induction l with
  | nil => rfl
  | cons h t ih => simp [charsStartWith, ih]

theorem charsContain_refl (l : List Char) : charsContain l l = true := by
  cases l with
  | nil => rfl
  | cons h t => simp [charsContain, charsStartWith_refl]

theorem strContains_append_left (a b n : String)
    (h : strContains a n = true) : strContains (a ++ b) n = true := by
  unfold strContains at *
  rw [show (a ++ b).toList = a.toList ++ b.toList from String.data_append a b]
  exact charsContain_append_left _ _ _ h

theorem strContains_append_right (a b n : String)
    (h : strContains b n = true) : strContains (a ++ b) n = true := by
  unfold strContains at *
  rw [show (a ++ b).toList = a.toList ++ b.toList from String.data_append a b]
  exact charsContain_append_right _ _ _ h

theorem strContains_refl (s : String) : strContains s s = true :=
  charsContain_refl s.toList

/-! ## Responses

`handle_request` returns `Result<Response<Full<Bytes>>, Infallible>`: every
path produces a response (never a connection-level fault).  A response is
embedded as its status code, its header list (in the order the builder adds
them) and its body string. -/

structure Response where
  status : Nat
  headers : List (String × String)
  body : String
deriving DecidableEq

/-! ## Rate-limit configuration (src/server.rs lines 445-471)

`RATE_LIMIT_CONFIG` is a `OnceLock<RateLimitConfig>`; the embedding threads
its state as `Option RateLimitConfig`.  `OnceLock::set` stores the value only
when the cell is still empty; `configure_rate_limiting` discards the result
of `set` (`let _ = RATE_LIMIT_CONFIG.set(config);`). -/

structure RateLimitConfig where
  enabled : Bool
  requests_per_minute : Nat
deriving DecidableEq

/-- `RateLimitConfig::default()` (lines 454-461). -/
def defaultRateLimitConfig : RateLimitConfig :=
  { enabled := false, requests_per_minute := 1000000 }

/-- `OnceLock::set`: writes only if the cell is empty, otherwise keeps the
old value (the `Err` result is discarded by the caller). -/
def onceLockSet (st : Option RateLimitConfig) (c : RateLimitConfig) :
    Option RateLimitConfig :=
  match st with
  | none => some c
  | some old => some old

/-- `configure_rate_limiting` (lines 463-471): builds the config with
`requests_per_minute.unwrap_or(1_000_000)` and calls `OnceLock::set`. -/
def configure_rate_limiting (st : Option RateLimitConfig)
    (enabled : Bool) (requests_per_minute : Option Nat) :
    Option RateLimitConfig :=
  onceLockSet st
    { enabled := enabled
      requests_per_minute := requests_per_minute.getD 1000000 }

/-! ## Rate limiter (src/server.rs lines 575-606)

`RATE_LIMIT_TRACKER` maps a client identity to `(Instant, u32)` (line 443):
the window start and the running count.  Time is embedded as a natural
number of seconds; `Instant::duration_since` on a monotonic clock is
truncated subtraction.  The counter is a `u32`, and the increment
`entry.1 += 1` (line 593) wraps around at 2^32 in release builds, so the
embedded count lives modulo `u32Mod`.  The embedding below is the per-entry
body of `check_rate_limit` for a client whose lock is acquired (the
fail-open branch and the over-10000-entries compaction do not touch a
single tracked entry in scope here). -/

/-- 2^32, the wrap-around modulus of the `u32` request counter. -/
def u32Mod : Nat := 4294967296

structure RLEntry where
  start : Nat
  count : Nat
deriving DecidableEq

/-- One `check_rate_limit` call (lines 580-601) acting on the entry for the
given client: `or_insert((now, 0))`, reset when `now - start > 60`, then
the wrapping `u32` increment and the comparison with the configured limit. -/
def check_rate_limit (limit now : Nat) (st : Option RLEntry) :
    Bool × RLEntry :=
  let e0 := st.getD { start := now, count := 0 }
  let e1 := if 60 < now - e0.start then { start := now, count := 0 } else e0
  let e2 : RLEntry := { start := e1.start, count := (e1.count + 1) % u32Mod }
  (decide (e2.count ≤ limit), e2)

/-- Folds `check_rate_limit` over a list of observation times, collecting
the admit/reject verdicts. -/
def runChecks (limit : Nat) : Option RLEntry → List Nat → List Bool × Option RLEntry
  | st, [] => ([], st)
  | st, t :: ts =>
    let r := check_rate_limit limit t st
    let rest := runChecks limit (some r.2) ts
    (r.1 :: rest.1, rest.2)

theorem check_rate_limit_in_window (limit t0 k t : Nat) (hw : t ≤ t0 + 60)
    (hk : k + 1 < u32Mod) :
    check_rate_limit limit t (some { start := t0, count := k }) =
      (decide (k + 1 ≤ limit), { start := t0, count := k + 1 }) := by
  unfold check_rate_limit
  have hle : ¬ 60 < t - t0 := by omega
  have hmod : (k + 1) % u32Mod = k + 1 := Nat.mod_eq_of_lt hk
  simp [hle, hmod]

theorem runChecks_in_window (limit t0 : Nat) (ts : List Nat) (k : Nat)
    (hw : ∀ t ∈ ts, t ≤ t0 + 60) (hk : k + ts.length < u32Mod) :
    runChecks limit (some { start := t0, count := k }) ts =
      ((List.range ts.length).map (fun i => decide (k + i + 1 ≤ limit)),
       some { start := t0, count := k + ts.length }) := by
  induction ts generalizing k with
  | nil => simp [runChecks]
  | cons t ts ih =>
    have ht : t ≤ t0 + 60 := hw t (List.mem_cons_self t ts)
    have hrest : ∀ u ∈ ts, u ≤ t0 + 60 := fun u hu => hw u (List.mem_cons_of_mem t hu)
    have hk1 : k + 1 < u32Mod := by
      simp only [List.length_cons] at hk
      omega
    have hk2 : (k + 1) + ts.length < u32Mod := by
      simp only [List.length_cons] at hk
      omega
    simp only [runChecks, check_rate_limit_in_window limit t0 k t ht hk1]
    rw [ih (k + 1) hrest hk2]
    simp only [List.length_cons, List.range_succ_eq_map, List.map_cons, List.map_map,
      Prod.mk.injEq, List.cons.injEq, Option.some.injEq, RLEntry.mk.injEq]
    refine ⟨⟨trivial, ?_⟩, trivial, by omega⟩
    apply List.map_congr_left
    intro i _
    simp only [Function.comp_apply, Nat.succ_eq_add_one]
    have h1 : k + (i + 1) + 1 = k + 1 + i + 1 := by omega
    rw [h1]

/-! ## Response and error shaping (src/server.rs lines 266-277, 317-322,
329-376, 400-410)

Bodies are the exact `format!` templates of the source.  String length in the
embedding counts characters, matching Rust `.chars()` where the source uses
it; the bodies in scope are ASCII so byte and character counts agree. -/

/-- Body of the 429 response (lines 268-270). -/
def rateLimitBody : String :=
  "\x7b\"error\": \"RateLimitExceeded\", \"message\": \"Too many requests\", \"retry_after\": 60\x7d"

/-- The 429 response (lines 271-276). -/
def rateLimitResponse : Response :=
  { status := 429
    headers := [("content-type", "application/json"), ("retry-after", "60")]
    body := rateLimitBody }

/-- Body of the 503 response returned when the worker send fails (line 320). -/
def serviceUnavailableBody : String :=
  "\x7b\"error\": \"Service Unavailable\", \"message\": \"Server overloaded\"\x7d"

/-- The 503 response (lines 318-321).  The builder sets no header at all. -/
def serviceUnavailableResponse : Response :=
  { status := 503, headers := [], body := serviceUnavailableBody }

/-- The 200 success response (lines 330-349): content-length is computed from
the full result string before the HEAD check empties the body. -/
def okResponse (isHead : Bool) (s : String) : Response :=
  { status := 200
    headers := [("content-type", "application/json"),
                ("content-length", toString s.length)]
    body := if isHead then "" else s }

/-- Error-text classification (lines 356-361): first matching substring wins,
default 500. -/
def classifyHandlerError (e : String) : Nat × String :=
  if strContains e "validation" then (400, "ValidationError")
  else if strContains e "timeout" then (408, "TimeoutError")
  else if strContains e "not found" then (404, "NotFoundError")
  else (500, "InternalServerError")

/-- `e.to_string().chars().take(200).collect::<String>()` (line 365). -/
def truncatedMessage (e : String) : String :=
  String.mk (e.toList.take 200)

/-- The handler-error JSON body (lines 363-367). -/
def errorBody (e method path : String) (ts : Nat) : String :=
  "\x7b\"error\": \"" ++ (classifyHandlerError e).2 ++
    "\", \"message\": \"Request failed: " ++ truncatedMessage e ++
    "\", \"method\": \"" ++ method ++ "\", \"path\": \"" ++ path ++
    "\", \"timestamp\": " ++ toString ts ++ "\x7d"

/-- The handler-error response (lines 369-374). -/
def errorResponse (e method path : String) (ts : Nat) : Response :=
  { status := (classifyHandlerError e).1
    headers := [("content-type", "application/json"),
                ("x-error-recovery", "attempted")]
    body := errorBody e method path ts }

/-- The 404 body (lines 401-404). -/
def notFoundBody (method path : String) : String :=
  "\x7b\"error\": \"Not Found\", \"message\": \"No handler registered for " ++
    method ++ " " ++ path ++ "\", \"method\": \"" ++ method ++
    "\", \"path\": \"" ++ path ++
    "\", \"available_routes\": \"Check registered routes\"\x7d"

/-- The 404 response (lines 406-410). -/
def notFoundResponse (method path : String) : Response :=
  { status := 404
    headers := [("content-type", "application/json")]
    body := notFoundBody method path }

/-! ## Deferred dispatch outcome (src/server.rs lines 295-376)

For a deferred (async) handler the engine sends a `PythonRequest` to the
selected worker.  `sendOk` is whether `worker_tx.send(..).await` succeeded;
`reply` is what `resp_rx.await` produced (`none` when the oneshot sender was
dropped, i.e. the worker died).  A failed send returns the bare 503
immediately; a dead reply channel becomes `Err("Python worker died")` and
flows through the ordinary handler-error shaping. -/

def deferredDispatch (sendOk : Bool) (reply : Option (Except String String))
    (isHead : Bool) (method path : String) (ts : Nat) : Response :=
  if sendOk then
    match (match reply with
           | some r => r
           | none => Except.error "Python worker died") with
    | Except.ok s => okResponse isHead s
    | Except.error e => errorResponse e method path ts
  else
    serviceUnavailableResponse

/-! ## Client identity and the rate-limit gate (src/server.rs lines 254-281)

Header names arrive lowercased by the transport; header values are embedded
as strings (the `to_str` UTF-8 check always succeeds on them).  The gate is
the inline block of `handle_request`: note that it derives the client
identity itself and only runs the check `if let Some(ip) = client_ip` — the
separate `extract_client_ip` helper (lines 555-573), which would fall back
to `"127.0.0.1"`, is not called on this path. -/

def headerGet (headers : List (String × String)) (name : String) :
    Option String :=
  List.lookup name headers

/-- Rust `str::trim` (ASCII/Unicode whitespace at both ends). -/
def trimStr (s : String) : String :=
  String.mk (((s.toList.dropWhile Char.isWhitespace).reverse.dropWhile
    Char.isWhitespace).reverse)

/-- Rust split on the comma character, first piece: the part before the
first comma (the whole string when no comma occurs); always present. -/
def firstCommaPart (s : String) : String :=
  String.mk (s.toList.takeWhile (fun c => c ≠ Char.ofNat 44))

/-- The client-identity derivation inlined in `handle_request`
(lines 258-264): first comma-separated part of `x-forwarded-for`, trimmed;
else `x-real-ip` verbatim; else nothing. -/
def clientIpOf (headers : List (String × String)) : Option String :=
  match headerGet headers "x-forwarded-for" with
  | some v => some (trimStr (firstCommaPart v))
  | none => headerGet headers "x-real-ip"

/-- `RATE_LIMIT_TRACKER` update for one client: replace the entry if present,
else insert it. -/
def updateTracker : List (String × RLEntry) → String → RLEntry →
    List (String × RLEntry)
  | [], ip, e => [(ip, e)]
  | (k, v) :: rest, ip, e =>
    if k = ip then (k, e) :: rest else (k, v) :: updateTracker rest ip e

/-- `check_rate_limit(&ip)` against the shared tracker map. -/
def check_rate_limit_ip (limit now : Nat) (tr : List (String × RLEntry))
    (ip : String) : Bool × List (String × RLEntry) :=
  let r := check_rate_limit limit now (List.lookup ip tr)
  (r.1, updateTracker tr ip r.2)

/-- The rate-limit gate of `handle_request` (lines 254-281): returns the
early 429 response when the check rejects, and the updated tracker.  With no
config, a disabled config, or no derivable client identity, nothing happens. -/
def rateLimitGate (config : Option RateLimitConfig)
    (headers : List (String × String)) (now : Nat)
    (tr : List (String × RLEntry)) :
    Option Response × List (String × RLEntry) :=
  match config with
  | none => (none, tr)
  | some c =>
    if c.enabled then
      match clientIpOf headers with
      | some ip =>
        let r := check_rate_limit_ip c.requests_per_minute now tr ip
        (if r.1 then none else some rateLimitResponse, r.2)
      | none => (none, tr)
    else (none, tr)

/-! ## Route resolution and the parameterized fallback
(src/server.rs lines 283-293, 379-411; router.rs is not under src/)

`add_route` registers the handler under the key
the formatted string of the upper-cased method, a space and the path
(line 87) and caches the
`iscoroutinefunction` probe result; `handle_request` looks the key up in the
exact map first and only on a miss consults the router trie. -/

structure HandlerMetadata where
  is_async : Bool
deriving DecidableEq

/-- ASCII upper-casing of a string (the byte-level version is proved
equivalent below for the route key). -/
def strUpperAscii (s : String) : String :=
  String.mk (s.toList.map Char.toUpper)

/-- The route key `"METHOD path"` used for both registration and lookup. -/
def routeKeyStr (method path : String) : String :=
  strUpperAscii method ++ " " ++ path

def braceOpenChar : Char := Char.ofNat 123

def braceCloseChar : Char := Char.ofNat 125

/-- Modelled from the spec: the parameterized route trie lives in
`crate::router::RadixRouter` (router.rs), which is not among the provided
sources.  Per spec sections 3 and 4.1 the trie is walked segment-by-segment;
a segment matches a literal child exactly or falls into a parameter child
(written `/users/\x7bid\x7d`), capturing the segment value into an ordered
`(name, value)` list.  Path segmentation splits on the slash character. -/
def splitCharsAux : List Char → List (List Char)
  | [] => [[]]
  | c :: rest =>
    match splitCharsAux rest with
    | g :: gs =>
      if c = Char.ofNat 47 then [] :: g :: gs else (c :: g) :: gs
    | [] => [[c]]

def splitPath (s : String) : List String :=
  (splitCharsAux s.toList).map String.mk

/-- A template segment of the form `\x7bname\x7d`. -/
def isParamSeg (s : String) : Bool :=
  match s.toList with
  | c :: rest =>
    c = braceOpenChar &&
      (match rest.getLast? with
       | some d => d = braceCloseChar
       | none => false)
  | [] => false

def paramNameOf (s : String) : String :=
  String.mk ((s.toList.drop 1).dropLast)

/-- Modelled from the spec: segment-wise template matching with parameter
capture (spec 4.1). -/
def matchSegs : List String → List String → Option (List (String × String))
  | [], [] => some []
  | tseg :: ts, pseg :: ps =>
    if isParamSeg tseg then
      (matchSegs ts ps).map (fun acc => (paramNameOf tseg, pseg) :: acc)
    else if tseg = pseg then matchSegs ts ps
    else none
  | _, _ => none

/-- Modelled from the spec: `RadixRouter::find_route` over the registered
`(method, template)` routes (methods stored upper-cased by `add_route`,
line 116); returns the captured parameters of the first matching template. -/
def find_route (routes : List (String × String)) (method path : String) :
    Option (List (String × String)) :=
  match routes with
  | [] => none
  | (m, tpl) :: rest =>
    if m = method then
      match matchSegs (splitPath tpl) (splitPath path) with
      | some ps => some ps
      | none => find_route rest method path
    else
      find_route rest method path

/-- Modelled from the spec: `format!("\x7b:?\x7d", params)` renders the
captured parameters (their concrete Rust type lives in router.rs) in Debug
style, e.g. `[("id", "42")]`. -/
def paramsDebug (ps : List (String × String)) : String :=
  "[" ++ String.intercalate ", "
    (ps.map (fun p => "(\"" ++ p.1 ++ "\", \"" ++ p.2 ++ "\")")) ++ "]"

/-- The diagnostic 200 body for a parameterized match (lines 388-392). -/
def paramRouteBody (method path routeKey : String)
    (ps : List (String × String)) : String :=
  "\x7b\"message\": \"Parameterized route found\", \"method\": \"" ++ method ++
    "\", \"path\": \"" ++ path ++
    "\", \"status\": \"success\", \"route_key\": \"" ++ routeKey ++
    "\", \"params\": \"" ++ paramsDebug ps ++ "\"\x7d"

/-- The diagnostic 200 response (lines 393-397). -/
def paramRouteResponse (method path routeKey : String)
    (ps : List (String × String)) : Response :=
  { status := 200
    headers := [("content-type", "application/json")]
    body := paramRouteBody method path routeKey ps }

/-- Outcome of route resolution in `handle_request`: either the request is
dispatched to a registered handler, or the engine itself answers. -/
inductive RouteOutcome where
  | handler (meta : HandlerMetadata)
  | response (r : Response)
deriving DecidableEq

/-- The route-resolution spine of `handle_request` (lines 283-293, 379-411):
exact-map lookup first; on a miss the trie fallback; else the 404. -/
def routeDispatch (handlers : List (String × HandlerMetadata))
    (routes : List (String × String)) (method path : String) : RouteOutcome :=
  match List.lookup (routeKeyStr method path) handlers with
  | some meta => RouteOutcome.handler meta
  | none =>
    match find_route routes method path with
    | some ps =>
      RouteOutcome.response
        (paramRouteResponse method path (routeKeyStr method path) ps)
    | none => RouteOutcome.response (notFoundResponse method path)

/-! ## Admission controller (src/server.rs lines 164-180)

`max_connections = (worker_threads * 50 * 110) / 100` permits in a Tokio
semaphore; `try_acquire_owned` never blocks; a permit is held for the whole
connection and released when the task ends.  The semaphore is embedded as
its free-permit count. -/

/-- `base_connections` (line 165). -/
def base_connections (w : Nat) : Nat := w * 50

/-- `max_connections` (line 166): integer arithmetic of the source. -/
def max_connections (w : Nat) : Nat := base_connections w * 110 / 100

/-- The capacity formula as the spec words it:
`floor(worker_concurrency * 50 * 1.10)`, i.e. with the exact rational 11/10. -/
def specCapacity (w : Nat) : Nat := w * 50 * 11 / 10

/-- `Semaphore::try_acquire_owned`: non-blocking, fails when no permit is
free. -/
def tryAcquire (free : Nat) : Option Nat :=
  if 0 < free then some (free - 1) else none

/-- Dropping a permit returns it to the semaphore. -/
def releasePermit (free : Nat) : Nat := free + 1

/-- `k` successive successful acquisitions (fails if any one fails). -/
def acquireK : Nat → Nat → Option Nat
  | free, 0 => some free
  | free, k + 1 =>
    match tryAcquire free with
    | some rest => acquireK rest k
    | none => none

/-! ## Classification-probe accounting (src/server.rs lines 86-122, 293-327,
637-667, 721-763)

The capability probe is `inspect.iscoroutinefunction`.  The embedding counts
its invocations on each code path: `add_route` calls it once (lines 90-96)
and caches the result in `HandlerMetadata.is_async`; the dispatch branch
(line 295) reads only the cached flag; the direct path
`call_python_handler_sync_direct` (lines 637-667) never calls it; the
worker-side `handle_python_request_on_worker_no_cache` calls it once per
request (lines 736-740). -/

/-- `add_route` for probe accounting: the stored metadata and the number of
probe invocations performed during registration. -/
def add_route_probes (handlerIsAsync : Bool) : HandlerMetadata × Nat :=
  ({ is_async := handlerIsAsync }, 1)

/-- Probe invocations inside `handle_python_request_on_worker_no_cache`
(lines 736-740): the worker re-runs `inspect.iscoroutinefunction` once for
every request it executes. -/
def worker_exec_probes : Nat := 1

/-- Probe invocations inside `call_python_handler_sync_direct`
(lines 637-667): none. -/
def sync_direct_probes : Nat := 0

/-- Probe invocations caused by dispatching one request to a registered
handler (lines 293-327): the branch itself reads only the cached
`is_async`; a deferred request then runs on a worker, a direct one runs
inline. -/
def dispatch_probes (meta : HandlerMetadata) : Nat :=
  if meta.is_async then worker_exec_probes else sync_direct_probes

/-! ## Zero-allocation route key (src/server.rs lines 283-285, 413-437)

`create_route_key_fast` builds `"METHOD path"` either inside the 256-byte
stack buffer of the caller or, when too long, via `format!`.  Strings are
embedded as their UTF-8 byte lists (naturals below 256);
`to_ascii_uppercase` maps bytes 97-122 down by 32. -/

def asciiUpperByte (b : Nat) : Nat :=
  if 97 ≤ b ∧ b ≤ 122 then b - 32 else b

/-- `method.to_ascii_uppercase()` on the byte representation. -/
def toAsciiUpperBytes (s : List Nat) : List Nat :=
  s.map asciiUpperByte

/-- Sequential byte writes `buffer[pos] = byte; pos += 1;` of the fast
path. -/
def writeAt (buf : List Nat) (pos : Nat) : List Nat → List Nat
  | [] => buf
  | b :: rest => writeAt (buf.set pos b) (pos + 1) rest

/-- `create_route_key_fast` (lines 413-437): stack-buffer fast path when the
key fits, `format!("\x7b\x7d \x7b\x7d", method_upper, path)` otherwise. -/
def create_route_key_fast (method path buffer : List Nat) : List Nat :=
  let methodUpper := toAsciiUpperBytes method
  let totalLen := methodUpper.length + 1 + path.length
  if totalLen ≤ buffer.length then
    let buf1 := writeAt buffer 0 methodUpper
    let buf2 := buf1.set methodUpper.length 32
    let buf3 := writeAt buf2 (methodUpper.length + 1) path
    buf3.take totalLen
  else
    methodUpper ++ [32] ++ path

/-- The heap fallback / specification result: upper-cased method, one space
(byte 32), then the path. -/
def routeKeyBytes (method path : List Nat) : List Nat :=
  toAsciiUpperBytes method ++ [32] ++ path

/-! ## Supporting lemmas -/

theorem writeAt_append (xs ys : List Nat) (buf : List Nat) (pos : Nat) :
    writeAt buf pos (xs ++ ys) = writeAt (writeAt buf pos xs) (pos + xs.length) ys := by
  induction xs generalizing buf pos with
  | nil => simp [writeAt]
  | cons b rest ih =>
    simp only [List.cons_append, writeAt, List.length_cons]
    have hstep : writeAt (buf.set pos b) (pos + 1) (rest ++ ys) =
        writeAt (writeAt (buf.set pos b) (pos + 1) rest) (pos + 1 + rest.length) ys :=
      ih (buf.set pos b) (pos + 1)
    have harith : pos + 1 + rest.length = pos + (rest.length + 1) := by omega
    rw [harith] at hstep
    exact hstep

theorem writeAt_spec (bs : List Nat) (buf : List Nat) (pos : Nat)
    (h : pos + bs.length ≤ buf.length) :
    writeAt buf pos bs = buf.take pos ++ bs ++ buf.drop (pos + bs.length) := by
  induction bs generalizing buf pos with
  | nil => simp [writeAt, List.take_append_drop]
  | cons b rest ih =>
    simp only [writeAt]
    have hpos : pos < buf.length := by
      simp only [List.length_cons] at h
      omega
    have hlen : (pos + 1) + rest.length ≤ (buf.set pos b).length := by
      rw [List.length_set]
      simp only [List.length_cons] at h
      omega
    rw [ih (buf.set pos b) (pos + 1) hlen]
    rw [List.set_eq_take_cons_drop b hpos]
    have htake : (buf.take pos ++ b :: buf.drop (pos + 1)).take (pos + 1) =
        buf.take pos ++ [b] := by
      rw [List.take_append_eq_append_take]
      have h1 : (buf.take pos).length = pos := by
        rw [List.length_take]
        omega
      rw [h1]
      rw [List.take_take]
      have h2 : pos + 1 - pos = 1 := by omega
      have h3 : (pos + 1) ⊓ pos = pos := by omega
      rw [h2, h3]
      rfl
    have hdrop : (buf.take pos ++ b :: buf.drop (pos + 1)).drop (pos + 1 + rest.length) =
        buf.drop (pos + (rest.length + 1)) := by
      rw [List.drop_append_eq_append_drop]
      have h1 : (buf.take pos).length = pos := by
        rw [List.length_take]
        omega
      rw [h1]
      have h2 : (buf.take pos).drop (pos + 1 + rest.length) = [] := by
        apply List.drop_eq_nil_of_le
        rw [h1]
        omega
      rw [h2]
      have h3 : pos + 1 + rest.length - pos = 1 + rest.length := by omega
      rw [h3]
      have h4 : (b :: buf.drop (pos + 1)).drop (1 + rest.length) =
          (buf.drop (pos + 1)).drop rest.length := by
        have h5 : 1 + rest.length = rest.length + 1 := by omega
        rw [h5]
        rfl
      rw [h4, List.drop_drop]
      have h6 : pos + 1 + rest.length = pos + (rest.length + 1) := by omega
      rw [h6, List.nil_append]
    rw [htake, hdrop]
    simp only [List.append_assoc, List.cons_append, List.nil_append,
      List.singleton_append, List.length_cons]

theorem acquireK_self (n : Nat) : acquireK n n = some 0 := by
  induction n with
  | zero => rfl
  | succ m ih =>
    simp only [acquireK, tryAcquire]
    have h : 0 < m + 1 := by omega
    simp only [if_pos h, Nat.add_sub_cancel]
    exact ih

theorem strContains_left_component (a t : String) : strContains (a ++ t) t = true :=
  strContains_append_right a t t (strContains_refl t)

/-! ## Claim C1 -/

/-- Claim C1 counterexample: `configure_rate_limiting` writes through
`OnceLock::set` and discards its result, so a second call does NOT
overwrite — after `configure_rate_limiting(false, None)` followed by
`configure_rate_limiting(true, Some 5)` the stored configuration still has
`enabled = false` and the default quota, not `enabled = true, quota = 5` as
the claim requires. -/
theorem second_configure_call_is_ignored :
    configure_rate_limiting (configure_rate_limiting none false none) true (some 5) =
      some { enabled := false, requests_per_minute := 1000000 } ∧
    configure_rate_limiting (configure_rate_limiting none false none) true (some 5) ≠
      some { enabled := true, requests_per_minute := 5 } := by
  decide

/-- Claim C1 (amended): the FIRST call to `configure_rate_limiting` wins;
any later call is silently ignored, so after
`configure_rate_limiting(e1, q1); configure_rate_limiting(e2, q2)` the
configuration consulted by the dispatch path has `enabled = e1` and
`quota = q1` (with the quota defaulting to 1,000,000 when `q1 = None`). -/
theorem configure_rate_limiting_first_call_wins (e1 e2 : Bool) (q1 q2 : Option Nat) :
    configure_rate_limiting (configure_rate_limiting none e1 q1) e2 q2 =
      some { enabled := e1, requests_per_minute := q1.getD 1000000 } := rfl

/-! ## Claim C2 -/

/-- Claim C2 counterexample: when the send into the worker queue succeeds
but the single-use reply channel resolves with a failure (the worker died),
the engine folds the failure into the handler-error path as
`Err("Python worker died")`, and the text matches no classifier substring,
so the response status is 500 — not 503 as the claim requires. -/
theorem dead_reply_channel_gives_500 :
    (deferredDispatch true none false "GET" "/work" 0).status = 500 ∧
    (deferredDispatch true none false "GET" "/work" 0).status ≠ 503 := by
  decide

/-- Claim C2 (amended): a failed send into the worker queue yields exactly
the bare 503 response; a reply channel that resolves with a failure because
the worker died instead flows through the handler-error shaping as
`Err("Python worker died")` and yields a 500 `InternalServerError`
response.  Neither failure is a connection-level fault: both are ordinary
responses. -/
theorem worker_channel_failure_responses (reply : Option (Except String String))
    (isHead : Bool) (method path : String) (ts : Nat) :
    deferredDispatch false reply isHead method path ts = serviceUnavailableResponse ∧
    (deferredDispatch false reply isHead method path ts).status = 503 ∧
    deferredDispatch true none isHead method path ts =
      errorResponse "Python worker died" method path ts ∧
    (deferredDispatch true none isHead method path ts).status = 500 ∧
    strContains (deferredDispatch true none isHead method path ts).body
      "InternalServerError" = true := by
  refine ⟨rfl, rfl, rfl, rfl, ?_⟩
  show strContains (errorBody "Python worker died" method path ts)
    "InternalServerError" = true
  unfold errorBody
  apply strContains_append_left
  apply strContains_append_left
  apply strContains_append_left
  apply strContains_append_left
  apply strContains_append_left
  apply strContains_append_left
  decide

/-! ## Claim C3 -/

/-- Claim C3 counterexample: the 503 response produced when a deferred
submission fails is built with no header at all, so it does not carry
`content-type: application/json`, contradicting the claim that every
engine-produced response carries that header. -/
theorem worker_send_failure_503_lacks_content_type :
    (deferredDispatch false none false "GET" "/w" 0).headers = [] ∧
    (deferredDispatch false none false "GET" "/w" 0).headers.contains
      ("content-type", "application/json") = false := by
  decide

/-- Claim C3 (amended): every engine-produced response EXCEPT the 503 from
a failed deferred submission carries `content-type: application/json` (the
503 builder sets no header at all); every failure response — 404, 429, the
handler-error 4xx/5xx, and also the 503 — still has a non-empty JSON body
containing an `error` field and a human-readable `message` field. -/
theorem engine_response_headers_and_bodies (s m p e key : String) (isHead : Bool)
    (ts : Nat) (ps : List (String × String)) :
    (okResponse isHead s).headers.contains ("content-type", "application/json") = true ∧
    rateLimitResponse.headers.contains ("content-type", "application/json") = true ∧
    rateLimitResponse.headers.contains ("retry-after", "60") = true ∧
    (notFoundResponse m p).headers.contains ("content-type", "application/json") = true ∧
    (errorResponse e m p ts).headers.contains ("content-type", "application/json") = true ∧
    (paramRouteResponse m p key ps).headers.contains
      ("content-type", "application/json") = true ∧
    serviceUnavailableResponse.headers = [] ∧
    0 < rateLimitResponse.body.length ∧
    strContains rateLimitResponse.body "\"error\"" = true ∧
    strContains rateLimitResponse.body "\"message\"" = true ∧
    0 < serviceUnavailableResponse.body.length ∧
    strContains serviceUnavailableResponse.body "\"error\"" = true ∧
    strContains serviceUnavailableResponse.body "\"message\"" = true ∧
    0 < (notFoundResponse m p).body.length ∧
    strContains (notFoundResponse m p).body "\"error\"" = true ∧
    strContains (notFoundResponse m p).body "\"message\"" = true ∧
    0 < (errorResponse e m p ts).body.length ∧
    strContains (errorResponse e m p ts).body "\"error\"" = true ∧
    strContains (errorResponse e m p ts).body "\"message\"" = true := by
  refine ⟨rfl, rfl, rfl, rfl, rfl, rfl, rfl, by decide, by decide, by decide,
    by decide, by decide, by decide, ?_, ?_, ?_, ?_, ?_, ?_⟩
  · show 0 < (notFoundBody m p).length
    unfold notFoundBody
    rw [String.length_append]
    have h : 0 < ("\", \"available_routes\": \"Check registered routes\"\x7d" : String).length := by
      decide
    omega
  · show strContains (notFoundBody m p) "\"error\"" = true
    unfold notFoundBody
    repeat apply strContains_append_left
    decide
  · show strContains (notFoundBody m p) "\"message\"" = true
    unfold notFoundBody
    repeat apply strContains_append_left
    decide
  · show 0 < (errorBody e m p ts).length
    unfold errorBody
    rw [String.length_append]
    have h : 0 < ("\x7d" : String).length := by decide
    omega
  · show strContains (errorBody e m p ts) "\"error\"" = true
    unfold errorBody
    repeat apply strContains_append_left
    decide
  · show strContains (errorBody e m p ts) "\"message\"" = true
    unfold errorBody
    apply strContains_append_left
    apply strContains_append_left
    apply strContains_append_left
    apply strContains_append_left
    apply strContains_append_left
    apply strContains_append_left
    apply strContains_append_left
    apply strContains_append_left
    apply strContains_append_right
    decide

/-! ## Claim C4 -/

/-- Claim C4 counterexample: the request counter is a `u32` that wraps
around in release builds.  With the reachable configuration
`requests_per_minute = u32::MAX = 4294967295`, the first 4294967295
in-window checks from one client all admit and leave the counter at
`u32::MAX`; the check numbered `requests_per_minute + 1` then wraps the
counter to 0 and ADMITS (`0 <= limit`), so the rejection the claim requires
never happens at this quota. -/
theorem rate_limit_wraps_at_u32_max :
    runChecks 4294967295 none (List.replicate 4294967295 0) =
      (List.replicate 4294967295 true, some { start := 0, count := 4294967295 }) ∧
    check_rate_limit 4294967295 0 (some { start := 0, count := 4294967295 }) =
      (true, { start := 0, count := 0 }) := by
  constructor
  · have hsucc0 : List.replicate 4294967295 (0 : Nat) =
        0 :: List.replicate 4294967294 (0 : Nat) := by
      have h : (4294967295 : Nat) = 4294967294 + 1 := by norm_num
      rw [h, List.replicate_succ]
    have hsucc1 : List.replicate 4294967295 true =
        true :: List.replicate 4294967294 true := by
      have h : (4294967295 : Nat) = 4294967294 + 1 := by norm_num
      rw [h, List.replicate_succ]
    rw [hsucc0, hsucc1]
    have h1 : check_rate_limit 4294967295 0 none =
        (true, { start := 0, count := 1 }) := by
      decide
    obtain ⟨tl, htl⟩ : ∃ tl : List Nat, List.replicate 4294967294 (0 : Nat) = tl :=
      ⟨_, rfl⟩
    have hlen : tl.length = 4294967294 := by
      rw [← htl, List.length_replicate]
    rw [htl]
    have hw : ∀ t ∈ tl, t ≤ 0 + 60 := by
      intro t ht
      rw [← htl] at ht
      have h := List.eq_of_mem_replicate ht
      omega
    have hk : 1 + tl.length < u32Mod := by
      rw [hlen]
      unfold u32Mod
      norm_num
    have h2 := runChecks_in_window 4294967295 0 tl 1 hw hk
    rw [hlen] at h2
    simp only [runChecks, h1]
    rw [h2]
    simp only [Prod.mk.injEq, List.cons.injEq, Option.some.injEq, RLEntry.mk.injEq]
    refine ⟨⟨trivial, ?_⟩, trivial⟩
    apply List.ext_getElem
    · simp only [List.length_map, List.length_range, List.length_replicate]
    · intro n h3 h4
      simp only [List.getElem_map, List.getElem_range, List.getElem_replicate]
      simp only [List.length_map, List.length_range] at h3
      simp only [decide_eq_true_eq]
      omega
  · decide

/-- Claim C4 (amended): for a single client whose tracking lock is acquired
on every check and any configured quota strictly below
`u32::MAX = 4294967295`, the first `requests_per_minute` checks inside one
60-unit window all admit, the check numbered `requests_per_minute + 1`
inside that window rejects, and a check whose observed time exceeds the
recorded window start by more than 60 units resets the counter and admits
again (Scenario D unchanged: quota 2 gives admit, admit, reject).  At quota
exactly `u32::MAX` the wrapping `u32` counter makes the rejecting check
admit instead. -/
theorem rate_limit_window_behavior (limit t0 : Nat) (ts : List Nat)
    (hlen : ts.length = limit) (hw : ∀ t ∈ ts, t ≤ t0 + 60)
    (s c t : Nat) (hreset : s + 60 < t) (hpos : 1 ≤ limit)
    (hmax : limit < 4294967295) :
    (runChecks limit none (t0 :: ts)).1 = List.replicate limit true ++ [false] ∧
    check_rate_limit limit t (some { start := s, count := c }) =
      (true, { start := t, count := 1 }) := by
  have hmod1 : 1 % u32Mod = 1 := by decide
  constructor
  · have hfirst : check_rate_limit limit t0 none =
        (decide (1 ≤ limit), { start := t0, count := 1 }) := by
      unfold check_rate_limit
      simp [hmod1]
    have hk : 1 + ts.length < u32Mod := by
      rw [hlen]
      unfold u32Mod
      omega
    simp only [runChecks, hfirst]
    rw [runChecks_in_window limit t0 ts 1 hw hk]
    have hd : decide (1 ≤ limit) = true := by
      simp [hpos]
    rw [hd]
    have hmap : (List.range ts.length).map (fun i => decide (1 + i + 1 ≤ limit)) =
        List.replicate (limit - 1) true ++ [false] := by
      apply List.ext_getElem
      · simp [hlen]
        omega
      · intro n h1 h2
        simp only [List.getElem_map, List.getElem_range]
        rw [List.getElem_append]
        by_cases hn : n < (List.replicate (limit - 1) true).length
        · rw [dif_pos hn]
          rw [List.getElem_replicate]
          simp only [List.length_replicate] at hn
          simp only [List.length_map, List.length_range, hlen] at h1
          simp only [decide_eq_true_eq]
          omega
        · rw [dif_neg hn]
          simp only [List.length_replicate] at hn
          simp only [List.length_map, List.length_range, hlen] at h1
          have hn2 : n = limit - 1 := by omega
          subst hn2
          simp only [List.length_replicate, Nat.sub_self, List.getElem_cons_zero]
          simp only [decide_eq_false_iff_not]
          omega
    rw [hmap]
    have hrep : (true :: (List.replicate (limit - 1) true ++ [false])) =
        List.replicate limit true ++ [false] := by
      have h1 : limit = (limit - 1) + 1 := by omega
      rw [h1]
      rfl
    exact hrep
  · unfold check_rate_limit
    have hgt : 60 < t - s := by omega
    simp only [Option.getD_some, hgt, if_pos, decide_eq_true_eq]
    simp [hpos, hmod1]

/-- Claim C4 witness (Scenario D): with quota 2 (below `u32::MAX`), three
rapid requests from one client are admitted, admitted, rejected; and a
stale entry resets and admits on the next check. -/
theorem rate_limit_window_behavior_witness :
    ((∀ t ∈ [0, 0], t ≤ 0 + 60) ∧ (0 : Nat) + 60 < 61 ∧ 1 ≤ 2 ∧
      2 < 4294967295) ∧
    ((runChecks 2 none (0 :: [0, 0])).1 = List.replicate 2 true ++ [false] ∧
     check_rate_limit 2 61 (some { start := 0, count := 5 }) =
       (true, { start := 61, count := 1 })) :=
  ⟨⟨by decide, by decide, by decide, by norm_num⟩,
    rate_limit_window_behavior 2 0 [0, 0] rfl (by decide) 0 5 61 (by decide)
      (by decide) (by norm_num)⟩

/-! ## Claim C5 -/

/-- Claim C5: the admission capacity equals
`floor(worker_concurrency * 50 * 1.10)` permits (the integer computation
`(w * 50 * 110) / 100` of the source agrees with the spec formula), and
admission is strictly bounded: acquiring all capacity permits succeeds and
leaves none, the next non-blocking `try_admit` is rejected, and releasing
one permit makes exactly one further admission possible (the one after it
is rejected again). -/
theorem admission_capacity_and_bound (w : Nat) :
    max_connections w = specCapacity w ∧
    acquireK (max_connections w) (max_connections w) = some 0 ∧
    tryAcquire 0 = none ∧
    tryAcquire (releasePermit 0) = some 0 ∧
    (releasePermit 0 - 1 = 0 ∧ tryAcquire 0 = none) := by
  refine ⟨?_, acquireK_self _, rfl, rfl, rfl, rfl⟩
  unfold max_connections specCapacity base_connections
  have h1 : w * 50 * 110 = (w * 50 * 11) * 10 := by ring
  have h2 : w * 50 * 11 * 10 / 100 = w * 50 * 11 / 10 := by
    omega
  rw [h1, h2]

/-! ## Claim C6 -/

/-- Claim C6 counterexample: dispatching a request to a handler registered
as deferred executes it through
`handle_python_request_on_worker_no_cache`, which re-invokes the
`inspect.iscoroutinefunction` capability probe once per request — the probe
count triggered by dispatch is 1, not the 0 the claim requires. -/
theorem deferred_dispatch_reprobes :
    dispatch_probes (add_route_probes true).1 = 1 ∧
    dispatch_probes (add_route_probes true).1 ≠ 0 := by
  decide

/-- Claim C6 (amended): the capability probe runs exactly once at
`add_route` time and its result is cached in the metadata; the dispatch
branch reads only the cached flag and a direct request triggers no further
probe, but the worker-side execution of every deferred request re-invokes
the probe exactly once. -/
theorem probe_invocation_counts (b : Bool) :
    (add_route_probes b).2 = 1 ∧
    (add_route_probes b).1.is_async = b ∧
    dispatch_probes { is_async := false } = sync_direct_probes ∧
    sync_direct_probes = 0 ∧
    dispatch_probes { is_async := true } = worker_exec_probes ∧
    worker_exec_probes = 1 :=
  ⟨rfl, rfl, rfl, rfl, rfl, rfl⟩

/-! ## Claim C7 -/

/-- Claim C7 counterexample: with rate limiting enabled at quota 0 (any
counted client is rejected), a request carrying neither `x-forwarded-for`
nor `x-real-ip` is not checked at all — no 429 is produced and the tracker
is left untouched — while the same request with `x-real-ip` set is counted
and rejected.  The code never reaches the default identity: the
no-header case skips the check entirely. -/
theorem headerless_request_bypasses_rate_limit :
    rateLimitGate (some { enabled := true, requests_per_minute := 0 }) [] 0 [] =
      (none, []) ∧
    rateLimitGate (some { enabled := true, requests_per_minute := 0 })
      [("x-real-ip", "1.2.3.4")] 0 [] =
      (some rateLimitResponse, [("1.2.3.4", { start := 0, count := 1 })]) := by
  decide

/-- Claim C7 (amended): when rate limiting is enabled, a request carrying
`x-forwarded-for` is checked under the trimmed first comma-separated value,
else one carrying `x-real-ip` is checked under that value verbatim; a
request carrying neither header bypasses the rate-limit check entirely — it
is not counted and can never be rejected with 429 (the `extract_client_ip`
helper with its `127.0.0.1` default is not consulted on this path). -/
theorem client_identity_and_gate (headers : List (String × String)) (v : String)
    (c : RateLimitConfig) (now : Nat) (tr : List (String × RLEntry)) :
    (headerGet headers "x-forwarded-for" = some v →
      clientIpOf headers = some (trimStr (firstCommaPart v))) ∧
    (headerGet headers "x-forwarded-for" = none →
      headerGet headers "x-real-ip" = some v →
      clientIpOf headers = some v) ∧
    (headerGet headers "x-forwarded-for" = none →
      headerGet headers "x-real-ip" = none →
      clientIpOf headers = none ∧
      rateLimitGate (some c) headers now tr = (none, tr)) := by
  refine ⟨?_, ?_, ?_⟩
  · intro h
    unfold clientIpOf
    rw [h]
  · intro h1 h2
    unfold clientIpOf
    rw [h1, h2]
  · intro h1 h2
    have hip : clientIpOf headers = none := by
      unfold clientIpOf
      rw [h1, h2]
    refine ⟨hip, ?_⟩
    unfold rateLimitGate
    by_cases he : c.enabled
    · simp [he, hip]
    · simp [he]

/-- Claim C7 witness: a request whose `x-forwarded-for` is
`" 1.2.3.4 , 9.9.9.9"` is identified as `1.2.3.4` (first comma-separated
value, trimmed). -/
theorem client_identity_and_gate_witness :
    headerGet [("x-forwarded-for", " 1.2.3.4 , 9.9.9.9")] "x-forwarded-for" =
      some " 1.2.3.4 , 9.9.9.9" ∧
    clientIpOf [("x-forwarded-for", " 1.2.3.4 , 9.9.9.9")] = some "1.2.3.4" := by
  refine ⟨by decide, ?_⟩
  have h := (client_identity_and_gate [("x-forwarded-for", " 1.2.3.4 , 9.9.9.9")]
    " 1.2.3.4 , 9.9.9.9" defaultRateLimitConfig 0 []).1 (by decide)
  rw [h]
  decide

/-! ## Claim C8 -/

/-- Claim C8: handler errors are classified by substring inspection of the
error text in the order validation/timeout/not-found/default, yielding
400/408/404/500 with the corresponding error-type name; the message
embedded in the body is the error text truncated to at most 200 characters,
and the response carries `x-error-recovery: attempted`. -/
theorem handler_error_classification (e m p : String) (ts : Nat) :
    (strContains e "validation" = true →
      (errorResponse e m p ts).status = 400 ∧
      (classifyHandlerError e).2 = "ValidationError") ∧
    (strContains e "validation" = false → strContains e "timeout" = true →
      (errorResponse e m p ts).status = 408 ∧
      (classifyHandlerError e).2 = "TimeoutError") ∧
    (strContains e "validation" = false → strContains e "timeout" = false →
      strContains e "not found" = true →
      (errorResponse e m p ts).status = 404 ∧
      (classifyHandlerError e).2 = "NotFoundError") ∧
    (strContains e "validation" = false → strContains e "timeout" = false →
      strContains e "not found" = false →
      (errorResponse e m p ts).status = 500 ∧
      (classifyHandlerError e).2 = "InternalServerError") ∧
    (truncatedMessage e).toList = e.toList.take 200 ∧
    (truncatedMessage e).length ≤ 200 ∧
    strContains (errorBody e m p ts) (truncatedMessage e) = true ∧
    (errorResponse e m p ts).headers.contains ("x-error-recovery", "attempted") = true ∧
    (errorResponse e m p ts).body = errorBody e m p ts := by
  refine ⟨?_, ?_, ?_, ?_, rfl, ?_, ?_, rfl, rfl⟩
  · intro h
    constructor
    · show (classifyHandlerError e).1 = 400
      simp [classifyHandlerError, h]
    · simp [classifyHandlerError, h]
  · intro h1 h2
    constructor
    · show (classifyHandlerError e).1 = 408
      simp [classifyHandlerError, h1, h2]
    · simp [classifyHandlerError, h1, h2]
  · intro h1 h2 h3
    constructor
    · show (classifyHandlerError e).1 = 404
      simp [classifyHandlerError, h1, h2, h3]
    · simp [classifyHandlerError, h1, h2, h3]
  · intro h1 h2 h3
    constructor
    · show (classifyHandlerError e).1 = 500
      simp [classifyHandlerError, h1, h2, h3]
    · simp [classifyHandlerError, h1, h2, h3]
  · show (truncatedMessage e).length ≤ 200
    have h : (truncatedMessage e).length = (e.toList.take 200).length := rfl
    rw [h, List.length_take]
    exact min_le_left _ _
  · show strContains (errorBody e m p ts) (truncatedMessage e) = true
    unfold errorBody
    apply strContains_append_left
    apply strContains_append_left
    apply strContains_append_left
    apply strContains_append_left
    apply strContains_append_left
    apply strContains_append_left
    apply strContains_append_left
    exact strContains_left_component _ _

/-- Claim C8 witness: the error text `"validation failed"` is classified as
a 400 ValidationError. -/
theorem handler_error_classification_witness :
    strContains "validation failed" "validation" = true ∧
    (errorResponse "validation failed" "GET" "/a" 7).status = 400 ∧
    (classifyHandlerError "validation failed").2 = "ValidationError" :=
  ⟨by decide,
    ((handler_error_classification "validation failed" "GET" "/a" 7).1 (by decide)).1,
    ((handler_error_classification "validation failed" "GET" "/a" 7).1 (by decide)).2⟩

/-! ## Claim C9 -/

/-- Claim C9: on an exact-map miss, a request matching a stored
parameterized template gets the diagnostic 200 response whose body embeds
the captured parameters; only when the trie does not match either is the
404 returned. -/
theorem parameterized_trie_fallback (handlers : List (String × HandlerMetadata))
    (routes : List (String × String)) (method path : String)
    (hmiss : List.lookup (routeKeyStr method path) handlers = none) :
    (∀ ps, find_route routes method path = some ps →
      routeDispatch handlers routes method path =
        RouteOutcome.response
          (paramRouteResponse method path (routeKeyStr method path) ps) ∧
      (paramRouteResponse method path (routeKeyStr method path) ps).status = 200 ∧
      strContains (paramRouteBody method path (routeKeyStr method path) ps)
        (paramsDebug ps) = true) ∧
    (find_route routes method path = none →
      routeDispatch handlers routes method path =
        RouteOutcome.response (notFoundResponse method path) ∧
      (notFoundResponse method path).status = 404) := by
  constructor
  · intro ps hmatch
    refine ⟨?_, rfl, ?_⟩
    · unfold routeDispatch
      rw [hmiss, hmatch]
    · unfold paramRouteBody
      apply strContains_append_left
      exact strContains_left_component _ _
  · intro hnone
    refine ⟨?_, rfl⟩
    unfold routeDispatch
    rw [hmiss, hnone]

/-- Claim C9 witness (Scenario C): with only `GET /users/\x7bid\x7d`
registered, `GET /users/42` misses the exact map, matches the trie with
`id = 42`, and gets the diagnostic 200 payload embedding `("id", "42")`. -/
theorem parameterized_trie_fallback_witness :
    List.lookup (routeKeyStr "GET" "/users/42")
      [("GET /users/\x7bid\x7d", ({ is_async := false } : HandlerMetadata))] = none ∧
    find_route [("GET", "/users/\x7bid\x7d")] "GET" "/users/42" =
      some [("id", "42")] ∧
    routeDispatch [("GET /users/\x7bid\x7d", { is_async := false })]
      [("GET", "/users/\x7bid\x7d")] "GET" "/users/42" =
      RouteOutcome.response (paramRouteResponse "GET" "/users/42"
        (routeKeyStr "GET" "/users/42") [("id", "42")]) ∧
    strContains (paramRouteBody "GET" "/users/42" (routeKeyStr "GET" "/users/42")
      [("id", "42")]) "(\"id\", \"42\")" = true := by
  refine ⟨by decide, by decide, ?_, by decide⟩
  exact ((parameterized_trie_fallback
    [("GET /users/\x7bid\x7d", { is_async := false })]
    [("GET", "/users/\x7bid\x7d")] "GET" "/users/42" (by decide)).1
    [("id", "42")] (by decide)).1

/-! ## Claim C10 -/

/-- Claim C10: the zero-allocation fast path of route-key construction is
extensionally equal to the heap fallback — for every method, path and
buffer, `create_route_key_fast` produces exactly the upper-cased method, a
single space byte, and the path, whether or not the key fits the buffer. -/
theorem create_route_key_fast_refines (method path buffer : List Nat) :
    create_route_key_fast method path buffer = routeKeyBytes method path := by
  unfold create_route_key_fast routeKeyBytes
  by_cases h : (toAsciiUpperBytes method).length + 1 + path.length ≤ buffer.length
  · rw [if_pos h]
    show (writeAt ((writeAt buffer 0 (toAsciiUpperBytes method)).set
        (toAsciiUpperBytes method).length 32)
        ((toAsciiUpperBytes method).length + 1) path).take
        ((toAsciiUpperBytes method).length + 1 + path.length) =
      toAsciiUpperBytes method ++ [32] ++ path
    have e1 : (writeAt buffer 0 (toAsciiUpperBytes method)).set
        (toAsciiUpperBytes method).length 32 =
        writeAt (writeAt buffer 0 (toAsciiUpperBytes method))
          (0 + (toAsciiUpperBytes method).length) [32] := by
      simp [writeAt, Nat.zero_add]
    rw [e1, ← writeAt_append]
    have e2 : (toAsciiUpperBytes method).length + 1 =
        0 + (toAsciiUpperBytes method ++ [32]).length := by
      simp
    rw [e2, ← writeAt_append]
    have hlen : 0 + ((toAsciiUpperBytes method ++ [32]) ++ path).length ≤
        buffer.length := by
      simp only [List.length_append, List.length_cons, List.length_nil]
      omega
    rw [writeAt_spec _ _ _ hlen]
    have hcount : 0 + (toAsciiUpperBytes method ++ [32]).length + path.length =
        ((toAsciiUpperBytes method ++ [32]) ++ path).length := by
      simp only [List.length_append, List.length_cons, List.length_nil]
      omega
    rw [hcount]
    simp only [List.take_zero, List.nil_append]
    rw [List.take_left]
  · rw [if_neg h]

end TurboAPI
